import Mathlib

/-!
# Cognito identity-pool provider principal tags: identifier codec and CRUD handlers

A shallow embedding of
`internal/service/cognitoidentity/identity_pool_provider_principal_tag.go`.

Go strings are modelled by Lean `String`s (the identifiers handled here are
valid UTF-8, and the separator `:` is one ASCII byte, so splitting on the
character and splitting on the byte agree).  Go's `error` is modelled by the
type `Error`, `nil` by `none`.
-/

namespace CognitoIdentity

/-! ## Library functions used by the resource -/

/-- Go `error` values that reach the resource: an AWS SDK error carrying a
code and a message (`awserr.Error`), any other error, and an error built by
`fmt.Errorf("<msg>: %w", err)`, which wraps `err` behind a text. -/
inductive Error where
  | aws (code message : String)
  | other (text : String)
  | wrap (text : String) (inner : Error)
  deriving DecidableEq, Repr

/-- Segments of a character list separated by `sep`: the list-level worker of
`Split`.  A list with `n` separators yields `n + 1` segments. -/
def splitChars (sep : Char) : List Char → List (List Char)
  | [] => [[]]
  | c :: cs =>
    if c = sep then [] :: splitChars sep cs
    else
      match splitChars sep cs with
      | [] => [[c]]
      | seg :: segs => (c :: seg) :: segs

/-- Go `strings.Split(s, sep)` for a one-character separator: all substrings
of `s` between occurrences of `sep`; `[s]` when `sep` does not occur. -/
def Split (s : String) (sep : Char) : List String :=
  (splitChars sep s.data).map String.mk

/-- Go `strings.Join(elems, sep)`. -/
def Join : List String → String → String
  | [], _ => ""
  | [a], _ => a
  | a :: b :: rest, sep => a ++ sep ++ Join (b :: rest) sep

/-- Go `strings.Contains(s, substr)` on character lists. -/
def containsChars (sub : List Char) : List Char → Bool
  | [] => sub.isEmpty
  | c :: cs => sub.isPrefixOf (c :: cs) || containsChars sub cs

/-- Go `strings.Contains(s, substr)`. -/
def Contains (s substr : String) : Bool :=
  containsChars substr.data s.data

/-! ## The identifier codec -/

/-- The identifier assigned by Create: `fmt.Sprintf("%s:%s", poolId, providerName)`. -/
def sprintfID (poolId providerName : String) : String :=
  poolId ++ ":" ++ providerName

/-- The error built by `DecodeIdentityProviderPrincipalTagsID`. -/
def decodeError (id : String) : Error :=
  Error.other ("expected ID in format UserPoolID:ProviderName, received: " ++ id)

/-- Go `DecodeIdentityProviderPrincipalTagsID`: returns the pool id, the
provider name and the error (`none` for `nil`). -/
def DecodeIdentityProviderPrincipalTagsID (id : String) : String × String × Option Error :=
  let idParts := Split id ':'
  if idParts.length ≤ 2 then
    ("", "", some (decodeError id))
  else
    let providerName := idParts.drop (idParts.length - 1)
    let userPoolId := idParts.take (idParts.length - 1)
    (Join userPoolId ":", Join providerName "", none)

/-! ## Schema validation of the two key attributes -/

/-- The character class `[\w-]` of Go's regexp syntax: ASCII letters, digits,
`_` and `-`. -/
def isWordOrDash (c : Char) : Bool :=
  c.isAlphanum || c == '_' || c == '-'

/-- The character class `[0-9a-f-]`. -/
def isLowerHexOrDash (c : Char) : Bool :=
  c.isDigit || ('a' ≤ c && c ≤ 'f') || c == '-'

/-- Whether the whole character list matches `^[\w-]+:[0-9a-f-]+$`.  The first
class excludes `:`, so the leading run of class characters is the only
candidate for the first group. -/
def matchPoolIdChars (cs : List Char) : Bool :=
  let head := cs.takeWhile isWordOrDash
  match cs.dropWhile isWordOrDash with
  | ':' :: tail => !head.isEmpty && !tail.isEmpty && tail.all isLowerHexOrDash
  | _ => false

/-- The compiled pattern of `identity_pool_id` applied with `MatchString`. -/
def poolIdRegexpMatchString (v : String) : Bool :=
  matchPoolIdChars v.data

/-- The validator `validation.StringLenBetween(min, max)`: Go's `len` counts bytes. -/
def StringLenBetween (min max : Nat) (v : String) : Bool :=
  decide (min ≤ v.utf8ByteSize) && decide (v.utf8ByteSize ≤ max)

/-- The `ValidateFunc` of `identity_provider_name`. -/
def validIdentityProviderName (v : String) : Bool :=
  StringLenBetween 1 128 v

/-- The `ValidateFunc` of `identity_pool_id`. -/
def validIdentityPoolId (v : String) : Bool :=
  StringLenBetween 1 55 v && poolIdRegexpMatchString v

/-! ## The vendor client and the resource data -/

/-- Go `errors.As(err, &awsErr)` for `awsErr` of type `awserr.Error`: the code
and the message of the first AWS SDK error in the wrapping chain of `err`. -/
def errorsAsAws : Error → Option (String × String)
  | Error.aws code message => some (code, message)
  | Error.other _ => none
  | Error.wrap _ inner => errorsAsAws inner

/-- Go `tfawserr.ErrMessageContains(err, code, message)`: `err` is or wraps an
AWS SDK error whose code equals `code` and whose message contains `message`. -/
def ErrMessageContains (err : Error) (code message : String) : Bool :=
  match errorsAsAws err with
  | some (c, m) => c == code && Contains m message
  | none => false

/-- The SDK constant `cognitoidentity.ErrCodeResourceNotFoundException`. -/
def cognitoidentity.ErrCodeResourceNotFoundException : String :=
  "ResourceNotFoundException"

/-- The SDK constant `cognitoidentityprovider.ErrCodeResourceNotFoundException`. -/
def cognitoidentityprovider.ErrCodeResourceNotFoundException : String :=
  "ResourceNotFoundException"

/-- The SDK request `cognitoidentity.SetPrincipalTagAttributeMapInput`; a
pointer field is an `Option`, `none` for `nil`. -/
structure SetPrincipalTagAttributeMapInput where
  IdentityPoolId : Option String
  IdentityProviderName : Option String
  PrincipalTags : Option (List (String × Option String))
  UseDefaults : Option Bool
  deriving DecidableEq, Repr

/-- The SDK request `cognitoidentity.GetPrincipalTagAttributeMapInput`. -/
structure GetPrincipalTagAttributeMapInput where
  IdentityPoolId : Option String
  IdentityProviderName : Option String
  deriving DecidableEq, Repr

/-- The SDK response `cognitoidentity.GetPrincipalTagAttributeMapOutput`. -/
structure GetPrincipalTagAttributeMapOutput where
  IdentityPoolId : Option String
  IdentityProviderName : Option String
  PrincipalTags : Option (List (String × Option String))
  UseDefaults : Option Bool
  deriving DecidableEq, Repr

/-- The two calls of the vendor client that the resource uses, over a vendor
state `σ`: each returns the next vendor state and the call's answer. -/
structure Conn (σ : Type) where
  SetPrincipalTagAttributeMap : σ → SetPrincipalTagAttributeMapInput → σ × Option Error
  GetPrincipalTagAttributeMap :
    σ → GetPrincipalTagAttributeMapInput → σ × Except Error GetPrincipalTagAttributeMapOutput

/-- One call issued to the vendor client. -/
inductive Call where
  | set (params : SetPrincipalTagAttributeMapInput)
  | get (params : GetPrincipalTagAttributeMapInput)
  deriving DecidableEq, Repr

/-- Go `flex.ExpandStringMap`: every value becomes a non-nil string pointer. -/
def ExpandStringMap (m : List (String × String)) : List (String × Option String) :=
  m.map fun kv => (kv.1, some kv.2)

/-- Go `aws.StringMap`. -/
def StringMap (m : List (String × String)) : List (String × Option String) :=
  m.map fun kv => (kv.1, some kv.2)

/-- Go `aws.StringValueMap`: nil values are dropped, a nil map gives an empty map. -/
def StringValueMap (m : Option (List (String × Option String))) : List (String × String) :=
  (m.getD []).filterMap fun kv => kv.2.map fun v => (kv.1, v)

/-- The four attributes of the schema.  The tag map is listed in key order. -/
structure Attributes where
  identity_pool_id : String
  identity_provider_name : String
  principal_tags : List (String × String)
  use_defaults : Bool
  deriving DecidableEq, Repr

/-- The values handed to `d.Set` during a call, per attribute; `none` when the
attribute has not been written, `some none` when a nil pointer was written. -/
structure Written where
  identity_pool_id : Option (Option String)
  identity_provider_name : Option (Option String)
  principal_tags : Option (List (String × String))
  use_defaults : Option (Option Bool)
  deriving DecidableEq, Repr

/-- The part of `schema.ResourceData` the handlers touch: the id, the prior
state (the old side of `GetChange`), the planned values (configuration and
defaults merged over the state: the new side of `GetChange`), and what the
handler has written so far. -/
structure ResourceData where
  id : String
  state : Attributes
  plan : Attributes
  written : Written
  deriving DecidableEq, Repr

/-- The attribute names of the schema. -/
inductive Key where
  | identity_pool_id
  | identity_provider_name
  | principal_tags
  | use_defaults
  deriving DecidableEq, Repr

namespace ResourceData

/-- Go `d.Id()`. -/
def Id (d : ResourceData) : String := d.id

/-- Go `d.SetId(v)`. -/
def SetId (d : ResourceData) (v : String) : ResourceData := { d with id := v }

/-- Go `d.Get("identity_pool_id").(string)`: a written value shadows the plan,
a written nil reads as the zero value. -/
def GetIdentityPoolId (d : ResourceData) : String :=
  match d.written.identity_pool_id with
  | some v => v.getD ""
  | none => d.plan.identity_pool_id

/-- Go `d.Get("identity_provider_name").(string)`. -/
def GetIdentityProviderName (d : ResourceData) : String :=
  match d.written.identity_provider_name with
  | some v => v.getD ""
  | none => d.plan.identity_provider_name

/-- Go `d.Get("principal_tags").(map[string]interface{})`. -/
def GetPrincipalTags (d : ResourceData) : List (String × String) :=
  match d.written.principal_tags with
  | some v => v
  | none => d.plan.principal_tags

/-- Go `d.Get("use_defaults").(bool)`. -/
def GetUseDefaults (d : ResourceData) : Bool :=
  match d.written.use_defaults with
  | some v => v.getD false
  | none => d.plan.use_defaults

/-- Go `d.GetOk("principal_tags")`: the value, and whether it differs from the
zero value of its type (the empty map). -/
def GetOkPrincipalTags (d : ResourceData) : List (String × String) × Bool :=
  (d.GetPrincipalTags, !d.GetPrincipalTags.isEmpty)

/-- Go `d.GetOk("use_defaults")`: the value, and whether it differs from the
zero value of its type (`false`). -/
def GetOkUseDefaults (d : ResourceData) : Bool × Bool :=
  (d.GetUseDefaults, d.GetUseDefaults != false)

/-- Go `d.HasChange(key)`: the state and the plan differ at `key`. -/
def HasChange (d : ResourceData) : Key → Bool
  | Key.identity_pool_id => d.state.identity_pool_id != d.plan.identity_pool_id
  | Key.identity_provider_name =>
    d.state.identity_provider_name != d.plan.identity_provider_name
  | Key.principal_tags => d.state.principal_tags != d.plan.principal_tags
  | Key.use_defaults => d.state.use_defaults != d.plan.use_defaults

/-- Go `d.HasChanges(keys...)`. -/
def HasChanges (d : ResourceData) (keys : List Key) : Bool :=
  keys.any d.HasChange

/-- Go `d.Set("identity_pool_id", v)` (the handler drops its result). -/
def SetIdentityPoolId (d : ResourceData) (v : Option String) : ResourceData :=
  { d with written := { d.written with identity_pool_id := some v } }

/-- Go `d.Set("identity_provider_name", v)` (the handler drops its result). -/
def SetIdentityProviderName (d : ResourceData) (v : Option String) : ResourceData :=
  { d with written := { d.written with identity_provider_name := some v } }

/-- Go `d.Set("use_defaults", v)` (the handler drops its result). -/
def SetUseDefaults (d : ResourceData) (v : Option Bool) : ResourceData :=
  { d with written := { d.written with use_defaults := some v } }

/-- Go `d.Set("principal_tags", v)` with its error result: a string map always
fits the schema's map of strings, so the write succeeds. -/
def SetPrincipalTags (d : ResourceData) (v : List (String × String)) :
    Except Error ResourceData :=
  Except.ok { d with written := { d.written with principal_tags := some v } }

end ResourceData

/-- What a handler runs on and leaves behind: the resource data, the vendor
state, and the calls issued to the vendor client so far, oldest first. -/
structure Run (σ : Type) where
  d : ResourceData
  vendor : σ
  calls : List Call

/-- Issue `conn.SetPrincipalTagAttributeMap(params)` and record the call. -/
def callSet {σ : Type} (conn : Conn σ) (r : Run σ) (params : SetPrincipalTagAttributeMapInput) :
    Run σ × Option Error :=
  let res := conn.SetPrincipalTagAttributeMap r.vendor params
  ({ r with vendor := res.1, calls := r.calls ++ [Call.set params] }, res.2)

/-- Issue `conn.GetPrincipalTagAttributeMap(params)` and record the call. -/
def callGet {σ : Type} (conn : Conn σ) (r : Run σ) (params : GetPrincipalTagAttributeMapInput) :
    Run σ × Except Error GetPrincipalTagAttributeMapOutput :=
  let res := conn.GetPrincipalTagAttributeMap r.vendor params
  ({ r with vendor := res.1, calls := r.calls ++ [Call.get params] }, res.2)

/-! ## The four handlers -/

/-- Go `resourceIdentityProviderPrincipalTagRead`: the returned error (`none`
for `nil`) and the run afterwards. -/
def resourceIdentityProviderPrincipalTagRead {σ : Type} (conn : Conn σ) (r : Run σ) :
    Option Error × Run σ :=
  match DecodeIdentityProviderPrincipalTagsID r.d.Id with
  | (_, _, some err) => (some err, r)
  | (poolId, providerName, none) =>
    match callGet conn r
        { IdentityProviderName := some providerName, IdentityPoolId := some poolId } with
    | (r, Except.error err) =>
      if ErrMessageContains err cognitoidentity.ErrCodeResourceNotFoundException "" then
        (none, { r with d := r.d.SetId "" })
      else
        (some err, r)
    | (r, Except.ok ret) =>
      let d := r.d.SetIdentityPoolId ret.IdentityPoolId
      let d := d.SetIdentityProviderName ret.IdentityProviderName
      let d := d.SetUseDefaults ret.UseDefaults
      match d.SetPrincipalTags (StringValueMap ret.PrincipalTags) with
      | Except.error err =>
        (some (Error.wrap "error setting attribute_mapping error" err), { r with d := d })
      | Except.ok d => (none, { r with d := d })

/-- The request that `resourceIdentityProviderPrincipalTagCreate` builds from the
resource data before it calls the vendor: both keys, and each optional field
only when `GetOk` reports it. -/
def createParams (d : ResourceData) : SetPrincipalTagAttributeMapInput :=
  let providerName := d.GetIdentityProviderName
  let poolId := d.GetIdentityPoolId
  let params : SetPrincipalTagAttributeMapInput :=
    { IdentityPoolId := some poolId, IdentityProviderName := some providerName,
      PrincipalTags := none, UseDefaults := none }
  let params :=
    match d.GetOkPrincipalTags with
    | (v, true) => { params with PrincipalTags := some (ExpandStringMap v) }
    | (_, false) => params
  let params :=
    match d.GetOkUseDefaults with
    | (v, true) => { params with UseDefaults := some v }
    | (_, false) => params
  params

/-- Go `resourceIdentityProviderPrincipalTagCreate`. -/
def resourceIdentityProviderPrincipalTagCreate {σ : Type} (conn : Conn σ) (r : Run σ) :
    Option Error × Run σ :=
  let providerName := r.d.GetIdentityProviderName
  let poolId := r.d.GetIdentityPoolId
  match callSet conn r (createParams r.d) with
  | (r, some err) =>
    (some (Error.wrap "Error creating Cognito Identity Provider Principal Tags" err), r)
  | (r, none) =>
    resourceIdentityProviderPrincipalTagRead conn
      { r with d := r.d.SetId (sprintfID poolId providerName) }

/-- Go `resourceIdentityProviderPrincipalTagUpdate`. -/
def resourceIdentityProviderPrincipalTagUpdate {σ : Type} (conn : Conn σ) (r : Run σ) :
    Option Error × Run σ :=
  match DecodeIdentityProviderPrincipalTagsID r.d.Id with
  | (_, _, some err) => (some err, r)
  | (poolId, providerName, none) =>
    let params : SetPrincipalTagAttributeMapInput :=
      { IdentityPoolId := some poolId, IdentityProviderName := some providerName,
        PrincipalTags := none, UseDefaults := none }
    if r.d.HasChanges [Key.principal_tags, Key.use_defaults] then
      let params :=
        { params with
          PrincipalTags := some (ExpandStringMap r.d.GetPrincipalTags),
          UseDefaults := some r.d.GetUseDefaults }
      match callSet conn r params with
      | (r, some err) => (some (Error.wrap "Error updating Cognito Identity Provider" err), r)
      | (r, none) => resourceIdentityProviderPrincipalTagRead conn r
    else
      resourceIdentityProviderPrincipalTagRead conn r

/-- The request that `resourceIdentityProviderPrincipalTagDelete` builds from the
decoded keys: an empty tag map and `UseDefaults` set. -/
def deleteParams (poolId providerName : String) : SetPrincipalTagAttributeMapInput :=
  let emptyList : List (String × String) := []
  { IdentityPoolId := some poolId, IdentityProviderName := some providerName,
    UseDefaults := some true, PrincipalTags := some (StringMap emptyList) }

/-- Go `resourceIdentityProviderPrincipalTagDelete`. -/
def resourceIdentityProviderPrincipalTagDelete {σ : Type} (conn : Conn σ) (r : Run σ) :
    Option Error × Run σ :=
  match DecodeIdentityProviderPrincipalTagsID r.d.Id with
  | (_, _, some err) => (some err, r)
  | (poolId, providerName, none) =>
    match callSet conn r (deleteParams poolId providerName) with
    | (r, some err) =>
      if ErrMessageContains err cognitoidentityprovider.ErrCodeResourceNotFoundException "" then
        (none, r)
      else
        (some err, r)
    | (r, none) => (none, r)

/-! ## Scripted vendor clients, for evaluating the handlers -/

/-- The vendor state of `scriptedConn`: the answers still to be given to the
Set calls and to the Get calls, in order. -/
abbrev Script : Type :=
  List (Option Error) × List (Except Error GetPrincipalTagAttributeMapOutput)

/-- A vendor client that answers from a script: each call takes the next
scripted answer of its kind; once the script is used up a Set call succeeds and
a Get call answers with the requested keys, no tags and the default flag. -/
def scriptedConn : Conn Script where
  SetPrincipalTagAttributeMap := fun s _ =>
    match s.1 with
    | [] => (s, none)
    | a :: rest => ((rest, s.2), a)
  GetPrincipalTagAttributeMap := fun s params =>
    match s.2 with
    | [] =>
      (s, Except.ok
        { IdentityPoolId := params.IdentityPoolId,
          IdentityProviderName := params.IdentityProviderName,
          PrincipalTags := none, UseDefaults := some true })
    | a :: rest => ((s.1, rest), a)

/-- The vendor's not-found error. -/
def notFoundError : Error :=
  Error.aws "ResourceNotFoundException" "IdentityPool not found"

/-- A vendor error that is not a not-found error. -/
def throttledError : Error :=
  Error.aws "TooManyRequestsException" "Rate exceeded"

/-- Attributes for the examples: one tag, and the given `use_defaults`. -/
def sampleAttributes (useDefaults : Bool) : Attributes :=
  { identity_pool_id := "us-east-1:0a1b", identity_provider_name := "graph.facebook.com",
    principal_tags := [("dept", "eng")], use_defaults := useDefaults }

/-- Nothing written yet. -/
def nothingWritten : Written :=
  { identity_pool_id := none, identity_provider_name := none,
    principal_tags := none, use_defaults := none }

/-- The attributes of a resource that does not exist yet: all zero values. -/
def zeroAttributes : Attributes :=
  { identity_pool_id := "", identity_provider_name := "", principal_tags := [],
    use_defaults := false }

/-- The resource data Create receives for the desired state
`principal_tags = {"dept": "eng"}`, `use_defaults = false`: no id, no prior state. -/
def desiredCreate : ResourceData :=
  { id := "", state := zeroAttributes, plan := sampleAttributes false, written := nothingWritten }

/-- The resource data Update receives when `use_defaults` goes from `true` to
`false` and the tags stay as they are. -/
def desiredUpdate : ResourceData :=
  { id := "us-east-1:0a1b:graph.facebook.com", state := sampleAttributes true,
    plan := sampleAttributes false, written := nothingWritten }

/-- The resource data of an existing resource whose plan equals its state. -/
def unchangedResource : ResourceData :=
  { id := "us-east-1:0a1b:graph.facebook.com", state := sampleAttributes true,
    plan := sampleAttributes true, written := nothingWritten }

/-- The resource data Update receives when `use_defaults` goes from `true` to
`false` on a resource with two tags, neither of which changes. -/
def desiredUpdateTwoTags : ResourceData :=
  { id := "us-east-1:0a1b:graph.facebook.com",
    state :=
      { identity_pool_id := "us-east-1:0a1b", identity_provider_name := "graph.facebook.com",
        principal_tags := [("dept", "eng"), ("team", "infra")], use_defaults := true },
    plan :=
      { identity_pool_id := "us-east-1:0a1b", identity_provider_name := "graph.facebook.com",
        principal_tags := [("dept", "eng"), ("team", "infra")], use_defaults := false },
    written := nothingWritten }

/-- The resource data of a resource whose stored id has only two segments:
the provider name is missing. -/
def malformedResource : ResourceData :=
  { id := "us-east-1:0a1b", state := sampleAttributes true,
    plan := sampleAttributes false, written := nothingWritten }

/-- A run that starts on resource data `d` against the scripted client. -/
def startRun (d : ResourceData) (script : Script) : Run Script :=
  { d := d, vendor := script, calls := [] }

end CognitoIdentity

namespace CognitoIdentity

/-! ## Lemmas on splitting and joining -/

theorem splitChars_ne_nil (sep : Char) (s : List Char) : splitChars sep s ≠ [] := by
  induction s with
  | nil => simp [splitChars]
  | cons c cs ih =>
    unfold splitChars
    split
    · simp
    · split <;> simp

theorem splitChars_append_sep (sep : Char) (a b : List Char) :
    splitChars sep (a ++ sep :: b) = splitChars sep a ++ splitChars sep b := by
  induction a with
  | nil => simp [splitChars]
  | cons c cs ih =>
    by_cases hc : c = sep
    · simp [splitChars, hc, ih]
    · have hne := splitChars_ne_nil sep cs
      cases hsp : splitChars sep cs with
      | nil => exact absurd hsp hne
      | cons seg segs =>
        simp [splitChars, hc, ih, hsp]

theorem splitChars_of_not_mem (sep : Char) (s : List Char) (h : sep ∉ s) :
    splitChars sep s = [s] := by
  induction s with
  | nil => simp [splitChars]
  | cons c cs ih =>
    have hc : c ≠ sep := fun e => h (by simp [e])
    have hcs : sep ∉ cs := fun e => h (by simp [e])
    simp [splitChars, hc, ih hcs]

theorem not_mem_of_mem_splitChars (sep : Char) (s seg : List Char)
    (h : seg ∈ splitChars sep s) : sep ∉ seg := by
  induction s generalizing seg with
  | nil =>
    simp [splitChars] at h
    simp [h]
  | cons c cs ih =>
    by_cases hc : c = sep
    · simp [splitChars, hc] at h
      rcases h with h | h
      · simp [h]
      · exact ih seg h
    · cases hsp : splitChars sep cs with
      | nil => exact absurd hsp (splitChars_ne_nil sep cs)
      | cons seg0 segs =>
        simp [splitChars, hc, hsp] at h
        rcases h with h | h
        · have h0 := ih seg0 (by simp [hsp])
          subst h
          intro hm
          rcases List.mem_cons.1 hm with e | e
          · exact hc e.symm
          · exact h0 e
        · exact ih seg (by simp [hsp, h])

theorem length_splitChars (sep : Char) (s : List Char) :
    (splitChars sep s).length = s.count sep + 1 := by
  induction s with
  | nil => simp [splitChars]
  | cons c cs ih =>
    by_cases hc : c = sep
    · simp [splitChars, hc, ih]
    · cases hsp : splitChars sep cs with
      | nil => exact absurd hsp (splitChars_ne_nil sep cs)
      | cons seg0 segs =>
        rw [hsp] at ih
        simp [splitChars, hc, hsp, List.count_cons] at ih ⊢
        omega

theorem Join_cons_cons_data (a b : String) (l : List String) (sep : String) :
    (Join (a :: b :: l) sep).data = a.data ++ sep.data ++ (Join (b :: l) sep).data := by
  simp [Join, String.data_append]

theorem Join_mk_cons_data (c : Char) (seg : List Char) (l : List String) (sep : String) :
    (Join (String.mk (c :: seg) :: l) sep).data = c :: (Join (String.mk seg :: l) sep).data := by
  cases l with
  | nil => simp [Join]
  | cons b l => simp [Join_cons_cons_data]

theorem Join_splitChars_data (sep : Char) (cs : List Char) :
    (Join ((splitChars sep cs).map String.mk) (String.mk [sep])).data = cs := by
  induction cs with
  | nil => simp [splitChars, Join]
  | cons c cs ih =>
    cases hsp : splitChars sep cs with
    | nil => exact absurd hsp (splitChars_ne_nil sep cs)
    | cons seg segs =>
      rw [hsp] at ih
      by_cases hc : c = sep
      · simp only [splitChars, hc, if_true, hsp, List.map_cons]
        rw [Join_cons_cons_data]
        simp only [List.map_cons] at ih
        simp [ih]
      · simp only [splitChars, hc, if_false, hsp, List.map_cons]
        rw [Join_mk_cons_data]
        simp only [List.map_cons] at ih
        simp [ih]

theorem Join_Split (s : String) : Join (Split s ':') ":" = s := by
  apply String.ext
  exact Join_splitChars_data ':' s.data

theorem Join_append_singleton (xs : List String) (y sep : String) (h : xs ≠ []) :
    Join (xs ++ [y]) sep = Join xs sep ++ sep ++ y := by
  induction xs with
  | nil => exact absurd rfl h
  | cons a l ih =>
    cases l with
    | nil => simp [Join]
    | cons b l =>
      have := ih (by simp)
      simp only [List.cons_append] at this ⊢
      simp only [Join, this]
      apply String.ext
      simp [String.data_append]

theorem Join_singleton (y sep : String) : Join [y] sep = y := rfl

theorem drop_length_pred_eq_getLast {α : Type} (l : List α) (h : l ≠ []) :
    l.drop (l.length - 1) = [l.getLast h] := by
  have e := List.dropLast_append_getLast h
  calc l.drop (l.length - 1)
      = (l.dropLast ++ [l.getLast h]).drop l.dropLast.length := by
        rw [e, List.length_dropLast]
    _ = [l.getLast h] := List.drop_left _ _

theorem length_Split (s : String) : (Split s ':').length = s.data.count ':' + 1 := by
  simp [Split, length_splitChars]

theorem not_mem_of_mem_Split (s seg : String) (h : seg ∈ Split s ':') : ':' ∉ seg.data := by
  simp only [Split, List.mem_map] at h
  obtain ⟨cs, hcs, hmk⟩ := h
  rw [← hmk]
  exact not_mem_of_mem_splitChars ':' s.data cs hcs

theorem Split_ne_nil (s : String) : Split s ':' ≠ [] := by
  simp [Split, splitChars_ne_nil]

theorem sprintfID_data (p n : String) : (sprintfID p n).data = p.data ++ ':' :: n.data := by
  simp [sprintfID, String.data_append]

theorem Split_sprintfID (p n : String) :
    Split (sprintfID p n) ':' = Split p ':' ++ Split n ':' := by
  simp [Split, sprintfID_data, splitChars_append_sep]

/-! ## Lemmas on the codec -/

theorem decode_of_short (id : String) (h : (Split id ':').length ≤ 2) :
    DecodeIdentityProviderPrincipalTagsID id = ("", "", some (decodeError id)) := by
  simp [DecodeIdentityProviderPrincipalTagsID, h]

theorem decode_of_long (id : String) (h : 2 < (Split id ':').length) :
    DecodeIdentityProviderPrincipalTagsID id =
      (Join ((Split id ':').take ((Split id ':').length - 1)) ":",
       Join ((Split id ':').drop ((Split id ':').length - 1)) "", none) := by
  have h2 : ¬ (Split id ':').length ≤ 2 := by omega
  simp [DecodeIdentityProviderPrincipalTagsID, h2]

theorem decode_error_iff (id : String) :
    (DecodeIdentityProviderPrincipalTagsID id).2.2 = none ↔ 2 < (Split id ':').length := by
  by_cases h : (Split id ':').length ≤ 2
  · rw [decode_of_short id h]
    simp
    omega
  · have h2 : 2 < (Split id ':').length := by omega
    rw [decode_of_long id h2]
    simp [h2]

theorem matchPoolIdChars_shape (cs : List Char) (h : matchPoolIdChars cs = true) :
    ∃ hd tl, cs = hd ++ ':' :: tl ∧ ':' ∉ hd ∧ ':' ∉ tl := by
  unfold matchPoolIdChars at h
  have hsplit := List.takeWhile_append_dropWhile isWordOrDash cs
  split at h
  · rename_i tail hdw
    refine ⟨cs.takeWhile isWordOrDash, tail, ?_, ?_, ?_⟩
    · rw [← hdw, hsplit]
    · intro hm
      have := List.mem_takeWhile_imp hm
      revert this
      decide
    · intro hm
      simp only [Bool.and_eq_true, List.all_eq_true] at h
      have := h.2 _ hm
      revert this
      decide
  · exact absurd h (by simp)

theorem Split_of_matchPoolId (p : String) (h : poolIdRegexpMatchString p = true) :
    ∃ hd tl, Split p ':' = [String.mk hd, String.mk tl] := by
  obtain ⟨hd, tl, hcs, hhd, htl⟩ := matchPoolIdChars_shape p.data h
  refine ⟨hd, tl, ?_⟩
  simp [Split, hcs, splitChars_append_sep, splitChars_of_not_mem _ _ hhd,
    splitChars_of_not_mem _ _ htl]

theorem regexp_of_validIdentityPoolId (p : String) (h : validIdentityPoolId p = true) :
    poolIdRegexpMatchString p = true := by
  simp only [validIdentityPoolId, Bool.and_eq_true] at h
  exact h.2

/-! ## The claims on the identifier codec -/

/-- C1, evaluated at a schema-valid key pair whose provider name holds a `:`
(the ARN of a SAML provider): the id built by Create decodes without error, but
to a pool id and a provider name other than the ones encoded, so the round trip
does not give back the pair. -/
theorem decode_sprintfID_colon_provider_name :
    validIdentityPoolId "us-east-1:0a1b" = true ∧
    validIdentityProviderName "arn:aws:iam::123456789012:saml-provider/idp" = true ∧
    DecodeIdentityProviderPrincipalTagsID
        (sprintfID "us-east-1:0a1b" "arn:aws:iam::123456789012:saml-provider/idp")
      = ("us-east-1:0a1b:arn:aws:iam::123456789012", "saml-provider/idp", none) ∧
    DecodeIdentityProviderPrincipalTagsID
        (sprintfID "us-east-1:0a1b" "arn:aws:iam::123456789012:saml-provider/idp")
      ≠ ("us-east-1:0a1b", "arn:aws:iam::123456789012:saml-provider/idp", none) := by
  decide

/-- C2: over schema-valid keys the identifier built by Create determines the
key pair: equal identifiers come from equal pool ids and equal provider names. -/
theorem sprintfID_injective (p1 n1 p2 n2 : String)
    (hp1 : validIdentityPoolId p1 = true) (_hn1 : validIdentityProviderName n1 = true)
    (hp2 : validIdentityPoolId p2 = true) (_hn2 : validIdentityProviderName n2 = true)
    (h : sprintfID p1 n1 = sprintfID p2 n2) : p1 = p2 ∧ n1 = n2 := by
  obtain ⟨a1, b1, e1⟩ := Split_of_matchPoolId p1 (regexp_of_validIdentityPoolId p1 hp1)
  obtain ⟨a2, b2, e2⟩ := Split_of_matchPoolId p2 (regexp_of_validIdentityPoolId p2 hp2)
  have hs : Split (sprintfID p1 n1) ':' = Split (sprintfID p2 n2) ':' := by rw [h]
  rw [Split_sprintfID, Split_sprintfID, e1, e2] at hs
  simp only [List.cons_append, List.nil_append, List.cons.injEq] at hs
  obtain ⟨ha, hb, hn⟩ := hs
  have hp : p1 = p2 := by
    rw [← Join_Split p1, ← Join_Split p2, e1, e2, ha, hb]
  have hn' : n1 = n2 := by
    rw [← Join_Split n1, ← Join_Split n2, hn]
  exact ⟨hp, hn'⟩

/-- Witness of C2 at a pool id and a provider name that itself holds a `:`. -/
theorem sprintfID_injective_witness :
    validIdentityPoolId "us-east-1:0a1b" = true ∧ validIdentityProviderName "a:b" = true ∧
    ("us-east-1:0a1b" = "us-east-1:0a1b" ∧ "a:b" = "a:b") :=
  ⟨by decide, by decide,
    sprintfID_injective "us-east-1:0a1b" "a:b" "us-east-1:0a1b" "a:b"
      (by decide) (by decide) (by decide) (by decide) rfl⟩

/-- C3: for a schema-valid pool id and a schema-valid provider name, decoding
the identifier built by Create returns a nil error. -/
theorem decode_sprintfID_no_error (p n : String)
    (hp : validIdentityPoolId p = true) (_hn : validIdentityProviderName n = true) :
    (DecodeIdentityProviderPrincipalTagsID (sprintfID p n)).2.2 = none := by
  obtain ⟨a, b, e⟩ := Split_of_matchPoolId p (regexp_of_validIdentityPoolId p hp)
  rw [decode_error_iff, Split_sprintfID, e]
  have := Split_ne_nil n
  have hlen : 0 < (Split n ':').length := List.length_pos.2 this
  simp only [List.length_append, List.length_cons, List.length_nil]
  omega

/-- Witness of C3 at a provider name that holds colons. -/
theorem decode_sprintfID_no_error_witness :
    validIdentityPoolId "us-east-1:0a1b" = true ∧
    validIdentityProviderName "arn:aws:iam::123456789012:saml-provider/idp" = true ∧
    (DecodeIdentityProviderPrincipalTagsID
      (sprintfID "us-east-1:0a1b" "arn:aws:iam::123456789012:saml-provider/idp")).2.2 = none :=
  ⟨by decide, by decide,
    decode_sprintfID_no_error "us-east-1:0a1b" "arn:aws:iam::123456789012:saml-provider/idp"
      (by decide) (by decide)⟩

/-- C4: whenever decode succeeds on `id`, the returned provider name is the last
`:`-separated segment of `id` and holds no `:`, and the returned pool id is what
stands before the last `:`, so that pool id, `:` and provider name give back
`id`; and `"poolid:with:colons:providerName"` decodes to
`("poolid:with:colons", "providerName")`. -/
theorem decode_splits_from_right :
    (∀ id : String, (DecodeIdentityProviderPrincipalTagsID id).2.2 = none →
      (Split id ':').getLast? = some (DecodeIdentityProviderPrincipalTagsID id).2.1 ∧
      ':' ∉ (DecodeIdentityProviderPrincipalTagsID id).2.1.data ∧
      (DecodeIdentityProviderPrincipalTagsID id).1 ++ ":" ++
        (DecodeIdentityProviderPrincipalTagsID id).2.1 = id) ∧
    DecodeIdentityProviderPrincipalTagsID "poolid:with:colons:providerName"
      = ("poolid:with:colons", "providerName", none) := by
  refine ⟨?_, by decide⟩
  intro id h
  rw [decode_error_iff] at h
  rw [decode_of_long id h]
  have hne := Split_ne_nil id
  have hdrop := drop_length_pred_eq_getLast _ hne
  have hlast : (Split id ':').getLast? = some ((Split id ':').getLast hne) :=
    List.getLast?_eq_getLast _ hne
  have hmem : (Split id ':').getLast hne ∈ Split id ':' := List.getLast_mem hne
  have htake : (Split id ':').take ((Split id ':').length - 1) ≠ [] := by
    intro e
    have := congrArg List.length e
    simp at this
    omega
  refine ⟨?_, ?_, ?_⟩
  · simp only [hdrop, Join_singleton, hlast]
  · simp only [hdrop, Join_singleton]
    exact not_mem_of_mem_Split id _ hmem
  · simp only [hdrop, Join_singleton]
    rw [← Join_append_singleton _ _ _ htake, ← hdrop, List.take_append_drop, Join_Split]

/-- Witness of C4 at the identifier of the spec's scenario. -/
theorem decode_splits_from_right_witness :
    (Split "poolid:with:colons:providerName" ':').getLast?
        = some (DecodeIdentityProviderPrincipalTagsID "poolid:with:colons:providerName").2.1 ∧
      ':' ∉ (DecodeIdentityProviderPrincipalTagsID "poolid:with:colons:providerName").2.1.data ∧
      (DecodeIdentityProviderPrincipalTagsID "poolid:with:colons:providerName").1 ++ ":" ++
        (DecodeIdentityProviderPrincipalTagsID "poolid:with:colons:providerName").2.1
        = "poolid:with:colons:providerName" :=
  decode_splits_from_right.1 "poolid:with:colons:providerName" (by decide)

/-- C5: on a string without any `:` decode returns a non-nil error. -/
theorem decode_rejects_without_colon (id : String) (h : ':' ∉ id.data) :
    (DecodeIdentityProviderPrincipalTagsID id).2.2 ≠ none := by
  have hlen : (Split id ':').length ≤ 2 := by
    simp [Split, splitChars_of_not_mem _ _ h]
  rw [decode_of_short id hlen]
  simp

/-- Witness of C5 at `"onlyonesegment"` and at the empty string. -/
theorem decode_rejects_without_colon_witness :
    (':' ∉ "onlyonesegment".data ∧
      (DecodeIdentityProviderPrincipalTagsID "onlyonesegment").2.2 ≠ none) ∧
    (':' ∉ "".data ∧ (DecodeIdentityProviderPrincipalTagsID "").2.2 ≠ none) :=
  ⟨⟨by decide, decode_rejects_without_colon "onlyonesegment" (by decide)⟩,
    ⟨by decide, decode_rejects_without_colon "" (by decide)⟩⟩

/-! ## Lemmas on the handlers -/

theorem containsChars_nil (cs : List Char) : containsChars [] cs = true := by
  cases cs <;> simp [containsChars]

theorem Contains_empty (s : String) : Contains s "" = true := by
  simp [Contains, containsChars_nil]

theorem ErrMessageContains_empty (err : Error) (code : String) :
    ErrMessageContains err code "" = decide ((errorsAsAws err).map Prod.fst = some code) := by
  unfold ErrMessageContains
  cases h : errorsAsAws err with
  | none => simp
  | some cm =>
    obtain ⟨c, m⟩ := cm
    by_cases hc : c = code <;> simp [hc, Contains_empty]

theorem decode_eq_of_no_error (id : String)
    (h : (DecodeIdentityProviderPrincipalTagsID id).2.2 = none) :
    DecodeIdentityProviderPrincipalTagsID id =
      ((DecodeIdentityProviderPrincipalTagsID id).1,
       (DecodeIdentityProviderPrincipalTagsID id).2.1, none) := by
  rcases hD : DecodeIdentityProviderPrincipalTagsID id with ⟨p, n, e⟩
  rw [hD] at h
  simp only at h
  simp [h]

/-- Read on a decodable id, by the answer of the Get call. -/
theorem read_of_decoded {σ : Type} (conn : Conn σ) (r : Run σ) (p n : String)
    (h : DecodeIdentityProviderPrincipalTagsID r.d.Id = (p, n, none)) :
    resourceIdentityProviderPrincipalTagRead conn r =
      match callGet conn r { IdentityProviderName := some n, IdentityPoolId := some p } with
      | (r1, Except.error err) =>
        if ErrMessageContains err cognitoidentity.ErrCodeResourceNotFoundException "" then
          (none, { r1 with d := r1.d.SetId "" })
        else (some err, r1)
      | (r1, Except.ok ret) =>
        (none, { r1 with d :=
          { (((r1.d.SetIdentityPoolId ret.IdentityPoolId).SetIdentityProviderName
                ret.IdentityProviderName).SetUseDefaults ret.UseDefaults) with
            written :=
              { (((r1.d.SetIdentityPoolId ret.IdentityPoolId).SetIdentityProviderName
                    ret.IdentityProviderName).SetUseDefaults ret.UseDefaults).written with
                principal_tags := some (StringValueMap ret.PrincipalTags) } } }) := by
  unfold resourceIdentityProviderPrincipalTagRead
  rw [h]
  simp only
  rcases hg : callGet conn r { IdentityProviderName := some n, IdentityPoolId := some p }
    with ⟨r1, res⟩
  cases res with
  | error err => simp
  | ok ret => simp [ResourceData.SetPrincipalTags]

theorem read_calls_of_decoded {σ : Type} (conn : Conn σ) (r : Run σ) (p n : String)
    (h : DecodeIdentityProviderPrincipalTagsID r.d.Id = (p, n, none)) :
    (resourceIdentityProviderPrincipalTagRead conn r).2.calls =
      r.calls ++ [Call.get { IdentityPoolId := some p, IdentityProviderName := some n }] := by
  rw [read_of_decoded conn r p n h]
  simp only [callGet]
  cases (conn.GetPrincipalTagAttributeMap r.vendor
    { IdentityPoolId := some p, IdentityProviderName := some n }).2 with
  | error err => simp only; split <;> rfl
  | ok ret => rfl

theorem read_error_of_decoded {σ : Type} (conn : Conn σ) (r : Run σ) (p n : String)
    (h : DecodeIdentityProviderPrincipalTagsID r.d.Id = (p, n, none)) :
    (resourceIdentityProviderPrincipalTagRead conn r).1 =
      match (conn.GetPrincipalTagAttributeMap r.vendor
        { IdentityPoolId := some p, IdentityProviderName := some n }).2 with
      | Except.error err =>
        if ErrMessageContains err cognitoidentity.ErrCodeResourceNotFoundException "" then none
        else some err
      | Except.ok _ => none := by
  rw [read_of_decoded conn r p n h]
  simp only [callGet]
  cases (conn.GetPrincipalTagAttributeMap r.vendor
    { IdentityPoolId := some p, IdentityProviderName := some n }).2 with
  | error err => simp only; split <;> rfl
  | ok ret => rfl

theorem read_id_of_error {σ : Type} (conn : Conn σ) (r : Run σ)
    (h : (resourceIdentityProviderPrincipalTagRead conn r).1 ≠ none) :
    (resourceIdentityProviderPrincipalTagRead conn r).2.d.Id = r.d.Id := by
  rcases hD : DecodeIdentityProviderPrincipalTagsID r.d.Id with ⟨p, n, e⟩
  cases e with
  | some err =>
    unfold resourceIdentityProviderPrincipalTagRead
    rw [hD]
  | none =>
    rw [read_of_decoded conn r p n hD] at h ⊢
    simp only [callGet] at h ⊢
    cases hres : (conn.GetPrincipalTagAttributeMap r.vendor
      { IdentityPoolId := some p, IdentityProviderName := some n }).2 with
    | error err =>
      rw [hres] at h
      simp only at h ⊢
      split
      · rename_i hc
        rw [if_pos hc] at h
        exact absurd rfl h
      · rfl
    | ok ret =>
      rw [hres] at h
      exact absurd rfl h

/-! ## The claims on the handlers -/

/-- C6, evaluated at the desired state `principal_tags = {"dept": "eng"}`,
`use_defaults = false`: the request Create sends carries the tags but no
`UseDefaults` at all, because `GetOk` does not report a `false`; Update, from
the same desired state, does send `UseDefaults = false`. -/
theorem create_omits_false_use_defaults :
    desiredCreate.GetPrincipalTags = [("dept", "eng")] ∧
    desiredCreate.GetUseDefaults = false ∧
    (resourceIdentityProviderPrincipalTagCreate scriptedConn
        (startRun desiredCreate ([], []))).2.calls.head? =
      some (Call.set
        { IdentityPoolId := some "us-east-1:0a1b",
          IdentityProviderName := some "graph.facebook.com",
          PrincipalTags := some [("dept", some "eng")],
          UseDefaults := none }) ∧
    (resourceIdentityProviderPrincipalTagUpdate scriptedConn
        (startRun desiredUpdate ([], []))).2.calls.head? =
      some (Call.set
        { IdentityPoolId := some "us-east-1:0a1b",
          IdentityProviderName := some "graph.facebook.com",
          PrincipalTags := some [("dept", some "eng")],
          UseDefaults := some false }) := by
  decide

/-- C7 as stated fails: on a decodable id with neither attribute changed,
Update still issues the Get call of its read-back, and when that call fails
with an error other than not-found Update returns the error. -/
theorem update_unchanged_still_calls_get :
    (DecodeIdentityProviderPrincipalTagsID unchangedResource.Id).2.2 = none ∧
    unchangedResource.HasChanges [Key.principal_tags, Key.use_defaults] = false ∧
    (resourceIdentityProviderPrincipalTagUpdate scriptedConn
        (startRun unchangedResource ([], []))).2.calls =
      [Call.get { IdentityPoolId := some "us-east-1:0a1b",
                  IdentityProviderName := some "graph.facebook.com" }] ∧
    (resourceIdentityProviderPrincipalTagUpdate scriptedConn
        (startRun unchangedResource ([], [Except.error throttledError]))).1 =
      some throttledError := by
  decide

/-- C7, amended: on a decodable id with neither `principal_tags` nor
`use_defaults` changed, Update does what Read does: it issues exactly one vendor
call, the Get call of the read-back on the decoded keys, hence no Set call, and
it returns success exactly when that call succeeds or answers
`ResourceNotFoundException`. -/
theorem update_unchanged_only_reads {σ : Type} (conn : Conn σ) (r : Run σ)
    (hdec : (DecodeIdentityProviderPrincipalTagsID r.d.Id).2.2 = none)
    (hch : r.d.HasChanges [Key.principal_tags, Key.use_defaults] = false) :
    resourceIdentityProviderPrincipalTagUpdate conn r =
      resourceIdentityProviderPrincipalTagRead conn r ∧
    (resourceIdentityProviderPrincipalTagUpdate conn r).2.calls =
      r.calls ++ [Call.get
        { IdentityPoolId := some (DecodeIdentityProviderPrincipalTagsID r.d.Id).1,
          IdentityProviderName := some (DecodeIdentityProviderPrincipalTagsID r.d.Id).2.1 }] ∧
    ((resourceIdentityProviderPrincipalTagUpdate conn r).1 = none ↔
      ∀ e, (conn.GetPrincipalTagAttributeMap r.vendor
          { IdentityPoolId := some (DecodeIdentityProviderPrincipalTagsID r.d.Id).1,
            IdentityProviderName :=
              some (DecodeIdentityProviderPrincipalTagsID r.d.Id).2.1 }).2 = Except.error e →
        (errorsAsAws e).map Prod.fst = some "ResourceNotFoundException") := by
  have hD := decode_eq_of_no_error r.d.Id hdec
  have hU : resourceIdentityProviderPrincipalTagUpdate conn r =
      resourceIdentityProviderPrincipalTagRead conn r := by
    unfold resourceIdentityProviderPrincipalTagUpdate
    rw [hD]
    simp only [hch]
    rfl
  refine ⟨hU, ?_, ?_⟩
  · rw [hU]
    exact read_calls_of_decoded conn r _ _ hD
  · rw [hU, read_error_of_decoded conn r _ _ hD]
    cases hres : (conn.GetPrincipalTagAttributeMap r.vendor
      { IdentityPoolId := some (DecodeIdentityProviderPrincipalTagsID r.d.Id).1,
        IdentityProviderName := some (DecodeIdentityProviderPrincipalTagsID r.d.Id).2.1 }).2 with
    | error err =>
      simp only [ErrMessageContains_empty, cognitoidentity.ErrCodeResourceNotFoundException]
      constructor
      · intro h e he
        cases he
        by_contra hne
        simp [hne] at h
      · intro h
        simp [h err rfl]
    | ok ret => simp

/-- Witness of the amended C7 at an unchanged resource and a vendor that answers
the Get call. -/
theorem update_unchanged_only_reads_witness :
    (resourceIdentityProviderPrincipalTagUpdate scriptedConn
        (startRun unchangedResource ([], []))).2.calls =
      [] ++ [Call.get
        { IdentityPoolId := some (DecodeIdentityProviderPrincipalTagsID unchangedResource.Id).1,
          IdentityProviderName :=
            some (DecodeIdentityProviderPrincipalTagsID unchangedResource.Id).2.1 }] :=
  (update_unchanged_only_reads scriptedConn (startRun unchangedResource ([], []))
    (by decide) (by decide)).2.1

/-- C8 as stated fails: when the Set call succeeds and the Get call of the
follow-up Read fails with an error other than not-found, Create returns that
error and the id it assigned before the Read stays assigned. -/
theorem create_read_failure_keeps_id :
    desiredCreate.Id = "" ∧
    (resourceIdentityProviderPrincipalTagCreate scriptedConn
        (startRun desiredCreate ([], [Except.error throttledError]))).1 = some throttledError ∧
    (resourceIdentityProviderPrincipalTagCreate scriptedConn
        (startRun desiredCreate ([], [Except.error throttledError]))).2.d.Id =
      "us-east-1:0a1b:graph.facebook.com" := by
  decide

/-- C8, amended: for a Create started with an empty id, if the Set call fails
then Create returns that error, wrapped, and the id is still empty afterwards;
if the Set call succeeds and Create still returns an error (the follow-up Read
failed), the id is the one assigned before the Read, pool id `:` provider name. -/
theorem create_failure_id {σ : Type} (conn : Conn σ) (r : Run σ) (hid : r.d.Id = "") :
    (∀ e, (conn.SetPrincipalTagAttributeMap r.vendor (createParams r.d)).2 = some e →
      (resourceIdentityProviderPrincipalTagCreate conn r).1 =
        some (Error.wrap "Error creating Cognito Identity Provider Principal Tags" e) ∧
      (resourceIdentityProviderPrincipalTagCreate conn r).2.d.Id = "") ∧
    ((conn.SetPrincipalTagAttributeMap r.vendor (createParams r.d)).2 = none →
      (resourceIdentityProviderPrincipalTagCreate conn r).1 ≠ none →
      (resourceIdentityProviderPrincipalTagCreate conn r).2.d.Id =
        sprintfID r.d.GetIdentityPoolId r.d.GetIdentityProviderName) := by
  constructor
  · intro e he
    unfold resourceIdentityProviderPrincipalTagCreate
    simp only [callSet, he]
    exact ⟨trivial, hid⟩
  · intro he hfail
    unfold resourceIdentityProviderPrincipalTagCreate at hfail ⊢
    simp only [callSet, he] at hfail ⊢
    rw [read_id_of_error conn _ hfail]
    rfl

/-- Witness of the amended C8: a Create whose Set call is refused, and a Create
whose follow-up Read is refused. -/
theorem create_failure_id_witness :
    ((resourceIdentityProviderPrincipalTagCreate scriptedConn
        (startRun desiredCreate ([some throttledError], []))).1 =
        some (Error.wrap "Error creating Cognito Identity Provider Principal Tags"
          throttledError) ∧
      (resourceIdentityProviderPrincipalTagCreate scriptedConn
        (startRun desiredCreate ([some throttledError], []))).2.d.Id = "") ∧
    (resourceIdentityProviderPrincipalTagCreate scriptedConn
        (startRun desiredCreate ([], [Except.error throttledError]))).2.d.Id =
      sprintfID (startRun desiredCreate ([], [Except.error throttledError])).d.GetIdentityPoolId
        (startRun desiredCreate ([], [Except.error throttledError])).d.GetIdentityProviderName :=
  ⟨(create_failure_id scriptedConn (startRun desiredCreate ([some throttledError], []))
      rfl).1 throttledError rfl,
    (create_failure_id scriptedConn (startRun desiredCreate ([], [Except.error throttledError]))
      rfl).2 rfl (by decide)⟩

/-- C9: on a decodable id, when the Get call answers with a
`ResourceNotFoundException` error Read returns nil, sets the id to the empty
string and leaves the state, the plan and the written attributes as they were;
when the Get call answers with any other error Read returns that error and
leaves the resource data, id included, unchanged. -/
theorem read_tolerates_not_found {σ : Type} (conn : Conn σ) (r : Run σ)
    (hdec : (DecodeIdentityProviderPrincipalTagsID r.d.Id).2.2 = none) (e : Error)
    (hget : (conn.GetPrincipalTagAttributeMap r.vendor
        { IdentityPoolId := some (DecodeIdentityProviderPrincipalTagsID r.d.Id).1,
          IdentityProviderName :=
            some (DecodeIdentityProviderPrincipalTagsID r.d.Id).2.1 }).2 = Except.error e) :
    ((errorsAsAws e).map Prod.fst = some "ResourceNotFoundException" →
      (resourceIdentityProviderPrincipalTagRead conn r).1 = none ∧
      (resourceIdentityProviderPrincipalTagRead conn r).2.d = { r.d with id := "" }) ∧
    ((errorsAsAws e).map Prod.fst ≠ some "ResourceNotFoundException" →
      (resourceIdentityProviderPrincipalTagRead conn r).1 = some e ∧
      (resourceIdentityProviderPrincipalTagRead conn r).2.d = r.d) := by
  have hD := decode_eq_of_no_error r.d.Id hdec
  rw [read_of_decoded conn r _ _ hD]
  simp only [callGet, hget, ErrMessageContains_empty,
    cognitoidentity.ErrCodeResourceNotFoundException]
  constructor
  · intro h
    simp [h, ResourceData.SetId]
  · intro h
    simp [h]

/-- Witness of C9: a vendor that answers the Get call with not-found, and one
that answers it with a throttling error. -/
theorem read_tolerates_not_found_witness :
    ((resourceIdentityProviderPrincipalTagRead scriptedConn
        (startRun unchangedResource ([], [Except.error notFoundError]))).1 = none ∧
      (resourceIdentityProviderPrincipalTagRead scriptedConn
        (startRun unchangedResource ([], [Except.error notFoundError]))).2.d =
        { (startRun unchangedResource ([], [Except.error notFoundError])).d with id := "" }) ∧
    ((resourceIdentityProviderPrincipalTagRead scriptedConn
        (startRun unchangedResource ([], [Except.error throttledError]))).1 =
        some throttledError ∧
      (resourceIdentityProviderPrincipalTagRead scriptedConn
        (startRun unchangedResource ([], [Except.error throttledError]))).2.d =
        (startRun unchangedResource ([], [Except.error throttledError])).d) :=
  ⟨(read_tolerates_not_found scriptedConn
      (startRun unchangedResource ([], [Except.error notFoundError]))
      (by decide) notFoundError rfl).1 (by decide),
    (read_tolerates_not_found scriptedConn
      (startRun unchangedResource ([], [Except.error throttledError]))
      (by decide) throttledError rfl).2 (by decide)⟩

/-- Delete on a decodable id: one Set call with the delete request, the resource
data untouched, and the error decided by the answer of that call. -/
theorem delete_of_decoded {σ : Type} (conn : Conn σ) (r : Run σ) (p n : String)
    (h : DecodeIdentityProviderPrincipalTagsID r.d.Id = (p, n, none)) :
    resourceIdentityProviderPrincipalTagDelete conn r =
      ((match (conn.SetPrincipalTagAttributeMap r.vendor (deleteParams p n)).2 with
        | some err =>
          if ErrMessageContains err
              cognitoidentityprovider.ErrCodeResourceNotFoundException "" then none
          else some err
        | none => none),
       { r with
          vendor := (conn.SetPrincipalTagAttributeMap r.vendor (deleteParams p n)).1,
          calls := r.calls ++ [Call.set (deleteParams p n)] }) := by
  unfold resourceIdentityProviderPrincipalTagDelete
  rw [h]
  simp only [callSet]
  cases (conn.SetPrincipalTagAttributeMap r.vendor (deleteParams p n)).2 with
  | some err => simp only; split <;> rfl
  | none => rfl

/-- C10: on a decodable id Delete returns nil when its Set call succeeds and
when that call answers with a `ResourceNotFoundException` error, and returns the
vendor error for any other failure; it leaves the resource data, id included,
as it was, so a second Delete on the same id whose Set call hits not-found
succeeds after a first Delete that succeeded. -/
theorem delete_idempotent_on_not_found {σ : Type} (conn : Conn σ) (r : Run σ)
    (hdec : (DecodeIdentityProviderPrincipalTagsID r.d.Id).2.2 = none) :
    ((conn.SetPrincipalTagAttributeMap r.vendor
        (deleteParams (DecodeIdentityProviderPrincipalTagsID r.d.Id).1
          (DecodeIdentityProviderPrincipalTagsID r.d.Id).2.1)).2 = none →
      (resourceIdentityProviderPrincipalTagDelete conn r).1 = none) ∧
    (∀ e, (conn.SetPrincipalTagAttributeMap r.vendor
        (deleteParams (DecodeIdentityProviderPrincipalTagsID r.d.Id).1
          (DecodeIdentityProviderPrincipalTagsID r.d.Id).2.1)).2 = some e →
      (errorsAsAws e).map Prod.fst = some "ResourceNotFoundException" →
      (resourceIdentityProviderPrincipalTagDelete conn r).1 = none) ∧
    (∀ e, (conn.SetPrincipalTagAttributeMap r.vendor
        (deleteParams (DecodeIdentityProviderPrincipalTagsID r.d.Id).1
          (DecodeIdentityProviderPrincipalTagsID r.d.Id).2.1)).2 = some e →
      (errorsAsAws e).map Prod.fst ≠ some "ResourceNotFoundException" →
      (resourceIdentityProviderPrincipalTagDelete conn r).1 = some e) ∧
    (resourceIdentityProviderPrincipalTagDelete conn r).2.d = r.d ∧
    ((conn.SetPrincipalTagAttributeMap r.vendor
        (deleteParams (DecodeIdentityProviderPrincipalTagsID r.d.Id).1
          (DecodeIdentityProviderPrincipalTagsID r.d.Id).2.1)).2 = none →
      ∀ e, (conn.SetPrincipalTagAttributeMap
          (resourceIdentityProviderPrincipalTagDelete conn r).2.vendor
          (deleteParams (DecodeIdentityProviderPrincipalTagsID r.d.Id).1
            (DecodeIdentityProviderPrincipalTagsID r.d.Id).2.1)).2 = some e →
        (errorsAsAws e).map Prod.fst = some "ResourceNotFoundException" →
        (resourceIdentityProviderPrincipalTagDelete conn r).1 = none ∧
        (resourceIdentityProviderPrincipalTagDelete conn
          (resourceIdentityProviderPrincipalTagDelete conn r).2).1 = none) := by
  have hD := decode_eq_of_no_error r.d.Id hdec
  have h1 := delete_of_decoded conn r _ _ hD
  have hd : (resourceIdentityProviderPrincipalTagDelete conn r).2.d = r.d := by rw [h1]
  have hD2 : DecodeIdentityProviderPrincipalTagsID
      (resourceIdentityProviderPrincipalTagDelete conn r).2.d.Id =
      ((DecodeIdentityProviderPrincipalTagsID r.d.Id).1,
       (DecodeIdentityProviderPrincipalTagsID r.d.Id).2.1, none) := by
    rw [hd]
    exact hD
  have h2 := delete_of_decoded conn (resourceIdentityProviderPrincipalTagDelete conn r).2 _ _ hD2
  refine ⟨?_, ?_, ?_, hd, ?_⟩
  · intro hs
    rw [h1, hs]
  · intro e hs hnf
    rw [h1, hs]
    simp [ErrMessageContains_empty, cognitoidentityprovider.ErrCodeResourceNotFoundException, hnf]
  · intro e hs hnf
    rw [h1, hs]
    simp [ErrMessageContains_empty, cognitoidentityprovider.ErrCodeResourceNotFoundException, hnf]
  · intro hs e hs2 hnf
    constructor
    · rw [h1, hs]
    · rw [h2, hs2]
      simp [ErrMessageContains_empty, cognitoidentityprovider.ErrCodeResourceNotFoundException,
        hnf]

/-- Witness of C10: the vendor accepts the first Delete and answers the second
with not-found; both Deletes return nil. -/
theorem delete_idempotent_on_not_found_witness :
    (resourceIdentityProviderPrincipalTagDelete scriptedConn
        (startRun unchangedResource ([none, some notFoundError], []))).1 = none ∧
    (resourceIdentityProviderPrincipalTagDelete scriptedConn
        (resourceIdentityProviderPrincipalTagDelete scriptedConn
          (startRun unchangedResource ([none, some notFoundError], []))).2).1 = none :=
  (delete_idempotent_on_not_found scriptedConn
      (startRun unchangedResource ([none, some notFoundError], []))
      (by decide)).2.2.2.2 rfl notFoundError rfl (by decide)

/-- Update on a decodable id with a change in one of the two tracked attributes:
one Set call with the full request, then the read-back unless the call failed. -/
theorem update_of_changed {σ : Type} (conn : Conn σ) (r : Run σ) (p n : String)
    (h : DecodeIdentityProviderPrincipalTagsID r.d.Id = (p, n, none))
    (hch : r.d.HasChanges [Key.principal_tags, Key.use_defaults] = true) :
    resourceIdentityProviderPrincipalTagUpdate conn r =
      match (conn.SetPrincipalTagAttributeMap r.vendor
          { IdentityPoolId := some p, IdentityProviderName := some n,
            PrincipalTags := some (ExpandStringMap r.d.GetPrincipalTags),
            UseDefaults := some r.d.GetUseDefaults }).2 with
      | some err =>
        (some (Error.wrap "Error updating Cognito Identity Provider" err),
          { r with
            vendor := (conn.SetPrincipalTagAttributeMap r.vendor
              { IdentityPoolId := some p, IdentityProviderName := some n,
                PrincipalTags := some (ExpandStringMap r.d.GetPrincipalTags),
                UseDefaults := some r.d.GetUseDefaults }).1,
            calls := r.calls ++ [Call.set
              { IdentityPoolId := some p, IdentityProviderName := some n,
                PrincipalTags := some (ExpandStringMap r.d.GetPrincipalTags),
                UseDefaults := some r.d.GetUseDefaults }] })
      | none =>
        resourceIdentityProviderPrincipalTagRead conn
          { r with
            vendor := (conn.SetPrincipalTagAttributeMap r.vendor
              { IdentityPoolId := some p, IdentityProviderName := some n,
                PrincipalTags := some (ExpandStringMap r.d.GetPrincipalTags),
                UseDefaults := some r.d.GetUseDefaults }).1,
            calls := r.calls ++ [Call.set
              { IdentityPoolId := some p, IdentityProviderName := some n,
                PrincipalTags := some (ExpandStringMap r.d.GetPrincipalTags),
                UseDefaults := some r.d.GetUseDefaults }] } := by
  unfold resourceIdentityProviderPrincipalTagUpdate
  rw [h]
  simp only [hch, callSet, if_true]
  cases (conn.SetPrincipalTagAttributeMap r.vendor
    { IdentityPoolId := some p, IdentityProviderName := some n,
      PrincipalTags := some (ExpandStringMap r.d.GetPrincipalTags),
      UseDefaults := some r.d.GetUseDefaults }).2 with
  | some err => rfl
  | none => rfl

theorem StringValueMap_some_map (m : List (String × String)) :
    StringValueMap (some (m.map fun kv => (kv.1, some kv.2))) = m := by
  induction m with
  | nil => rfl
  | cons kv rest ih =>
    simp only [StringValueMap, Option.getD_some, List.map_cons] at ih ⊢
    simp [List.filterMap_cons, ih]

/-- C11: on a decodable id with a change in `principal_tags` or `use_defaults`,
Update issues exactly one Set call, first of its calls. Its request carries the
pool id and the provider name decoded from the id; its `PrincipalTags` holds
every entry of the `principal_tags` map that `d.Get` returns, each key with its
value as a non-nil string and nothing else, so that reading the request's map
back gives that map; its `UseDefaults` is the `use_defaults` value that `d.Get`
returns. This holds whichever of the two changed. With nothing written to the
resource data the map and the flag are the planned, that is the desired,
values. -/
theorem update_resends_full_set {σ : Type} (conn : Conn σ) (r : Run σ)
    (hdec : (DecodeIdentityProviderPrincipalTagsID r.d.Id).2.2 = none)
    (hch : r.d.HasChanges [Key.principal_tags, Key.use_defaults] = true) :
    ∃ req rest,
      (resourceIdentityProviderPrincipalTagUpdate conn r).2.calls =
        r.calls ++ Call.set req :: rest ∧
      (∀ params, Call.set params ∉ rest) ∧
      req.IdentityPoolId = some (DecodeIdentityProviderPrincipalTagsID r.d.Id).1 ∧
      req.IdentityProviderName = some (DecodeIdentityProviderPrincipalTagsID r.d.Id).2.1 ∧
      req.PrincipalTags = some (r.d.GetPrincipalTags.map fun kv => (kv.1, some kv.2)) ∧
      StringValueMap req.PrincipalTags = r.d.GetPrincipalTags ∧
      req.UseDefaults = some r.d.GetUseDefaults ∧
      (r.d.written = nothingWritten →
        req.PrincipalTags = some (r.d.plan.principal_tags.map fun kv => (kv.1, some kv.2)) ∧
        StringValueMap req.PrincipalTags = r.d.plan.principal_tags ∧
        req.UseDefaults = some r.d.plan.use_defaults) := by
  have hD := decode_eq_of_no_error r.d.Id hdec
  have hcalls : ∃ rest, (resourceIdentityProviderPrincipalTagUpdate conn r).2.calls =
        r.calls ++ Call.set
          { IdentityPoolId := some (DecodeIdentityProviderPrincipalTagsID r.d.Id).1,
            IdentityProviderName := some (DecodeIdentityProviderPrincipalTagsID r.d.Id).2.1,
            PrincipalTags := some (ExpandStringMap r.d.GetPrincipalTags),
            UseDefaults := some r.d.GetUseDefaults } :: rest ∧
      ∀ params, Call.set params ∉ rest := by
    rw [update_of_changed conn r _ _ hD hch]
    cases hs : (conn.SetPrincipalTagAttributeMap r.vendor
      { IdentityPoolId := some (DecodeIdentityProviderPrincipalTagsID r.d.Id).1,
        IdentityProviderName := some (DecodeIdentityProviderPrincipalTagsID r.d.Id).2.1,
        PrincipalTags := some (ExpandStringMap r.d.GetPrincipalTags),
        UseDefaults := some r.d.GetUseDefaults }).2 with
    | some err =>
      exact ⟨[], by simp, by simp⟩
    | none =>
      refine ⟨[Call.get
        { IdentityPoolId := some (DecodeIdentityProviderPrincipalTagsID r.d.Id).1,
          IdentityProviderName :=
            some (DecodeIdentityProviderPrincipalTagsID r.d.Id).2.1 }], ?_, by simp⟩
      have hr := fun (v : σ) (cs : List Call) =>
        read_calls_of_decoded conn { d := r.d, vendor := v, calls := cs } _ _ hD
      simp only
      rw [hr]
      simp
  obtain ⟨rest, hc, hrest⟩ := hcalls
  have hexp : ExpandStringMap r.d.GetPrincipalTags =
      r.d.GetPrincipalTags.map fun kv => (kv.1, some kv.2) := rfl
  refine ⟨_, rest, hc, hrest, rfl, rfl, ?_, ?_, rfl, ?_⟩
  · simp only [hexp]
  · simp only [hexp]
    exact StringValueMap_some_map _
  · intro hw
    have ht : r.d.GetPrincipalTags = r.d.plan.principal_tags := by
      simp [ResourceData.GetPrincipalTags, hw, nothingWritten]
    have hu : r.d.GetUseDefaults = r.d.plan.use_defaults := by
      simp [ResourceData.GetUseDefaults, hw, nothingWritten]
    refine ⟨?_, ?_, ?_⟩
    · simp only [ht]
      rfl
    · simp only [ht]
      exact StringValueMap_some_map _
    · simp only [hu]

/-- Witness of C11: only `use_defaults` changes on a resource with two tags, and
the one Set request carries both unchanged tags and the new flag. -/
theorem update_resends_full_set_witness :
    ∃ req rest,
      (resourceIdentityProviderPrincipalTagUpdate scriptedConn
        (startRun desiredUpdateTwoTags ([], []))).2.calls = Call.set req :: rest ∧
      (∀ params, Call.set params ∉ rest) ∧
      req.IdentityPoolId = some "us-east-1:0a1b" ∧
      req.IdentityProviderName = some "graph.facebook.com" ∧
      req.PrincipalTags = some [("dept", some "eng"), ("team", some "infra")] ∧
      StringValueMap req.PrincipalTags = [("dept", "eng"), ("team", "infra")] ∧
      req.UseDefaults = some false := by
  obtain ⟨req, rest, hc, hrest, hp, hn, ht, hv, hu, _⟩ :=
    update_resends_full_set scriptedConn (startRun desiredUpdateTwoTags ([], []))
      (by decide) (by decide)
  refine ⟨req, rest, ?_, hrest, ?_, ?_, ?_, ?_, ?_⟩
  · simpa [startRun] using hc
  · rw [hp]; decide
  · rw [hn]; decide
  · rw [ht]; decide
  · rw [hv]; decide
  · rw [hu]; decide

/-- C12: when decoding the id fails, Read, Update and Delete each return the
decode error and leave the run as it was: no vendor call is recorded, the vendor
state is untouched, and the resource data, id and attributes, is unchanged. -/
theorem malformed_id_is_terminal {σ : Type} (conn : Conn σ) (r : Run σ)
    (hfail : (DecodeIdentityProviderPrincipalTagsID r.d.Id).2.2 ≠ none) :
    resourceIdentityProviderPrincipalTagRead conn r =
      ((DecodeIdentityProviderPrincipalTagsID r.d.Id).2.2, r) ∧
    resourceIdentityProviderPrincipalTagUpdate conn r =
      ((DecodeIdentityProviderPrincipalTagsID r.d.Id).2.2, r) ∧
    resourceIdentityProviderPrincipalTagDelete conn r =
      ((DecodeIdentityProviderPrincipalTagsID r.d.Id).2.2, r) := by
  rcases hD : DecodeIdentityProviderPrincipalTagsID r.d.Id with ⟨p, n, e⟩
  rw [hD] at hfail
  cases e with
  | none => exact absurd rfl hfail
  | some err =>
    refine ⟨?_, ?_, ?_⟩
    · unfold resourceIdentityProviderPrincipalTagRead
      rw [hD]
    · unfold resourceIdentityProviderPrincipalTagUpdate
      rw [hD]
    · unfold resourceIdentityProviderPrincipalTagDelete
      rw [hD]

/-- Witness of C12 at a stored id of two segments. -/
theorem malformed_id_is_terminal_witness :
    resourceIdentityProviderPrincipalTagRead scriptedConn (startRun malformedResource ([], [])) =
      ((DecodeIdentityProviderPrincipalTagsID (startRun malformedResource ([], [])).d.Id).2.2,
        startRun malformedResource ([], [])) ∧
    resourceIdentityProviderPrincipalTagUpdate scriptedConn
        (startRun malformedResource ([], [])) =
      ((DecodeIdentityProviderPrincipalTagsID (startRun malformedResource ([], [])).d.Id).2.2,
        startRun malformedResource ([], [])) ∧
    resourceIdentityProviderPrincipalTagDelete scriptedConn
        (startRun malformedResource ([], [])) =
      ((DecodeIdentityProviderPrincipalTagsID (startRun malformedResource ([], [])).d.Id).2.2,
        startRun malformedResource ([], [])) :=
  malformed_id_is_terminal scriptedConn (startRun malformedResource ([], [])) (by decide)

/-- Read on a decodable id whose Get call answers not-found: nil, and the id
cleared. -/
theorem read_not_found_of_decoded {σ : Type} (conn : Conn σ) (r : Run σ) (p n : String)
    (h : DecodeIdentityProviderPrincipalTagsID r.d.Id = (p, n, none)) (e : Error)
    (hget : (conn.GetPrincipalTagAttributeMap r.vendor
        { IdentityPoolId := some p, IdentityProviderName := some n }).2 = Except.error e)
    (hnf : (errorsAsAws e).map Prod.fst = some "ResourceNotFoundException") :
    (resourceIdentityProviderPrincipalTagRead conn r).1 = none ∧
    (resourceIdentityProviderPrincipalTagRead conn r).2.d.Id = "" := by
  rw [read_of_decoded conn r p n h]
  simp [callGet, hget, ErrMessageContains_empty,
    cognitoidentity.ErrCodeResourceNotFoundException, hnf, ResourceData.SetId, ResourceData.Id]

/-- C13 as stated fails: on a decodable id with a changed attribute, when the
Set call succeeds and the Get call of the read-back answers
`ResourceNotFoundException`, Update returns nil and clears the id. -/
theorem update_read_back_not_found_succeeds :
    (DecodeIdentityProviderPrincipalTagsID desiredUpdate.Id).2.2 = none ∧
    desiredUpdate.HasChanges [Key.principal_tags, Key.use_defaults] = true ∧
    (errorsAsAws notFoundError).map Prod.fst = some "ResourceNotFoundException" ∧
    (resourceIdentityProviderPrincipalTagUpdate scriptedConn
        (startRun desiredUpdate ([], [Except.error notFoundError]))).1 = none ∧
    (resourceIdentityProviderPrincipalTagUpdate scriptedConn
        (startRun desiredUpdate ([], [Except.error notFoundError]))).2.d.Id = "" ∧
    (resourceIdentityProviderPrincipalTagUpdate scriptedConn
        (startRun desiredUpdate ([], [Except.error notFoundError]))).2.calls.length = 2 := by
  decide

/-- C13, amended: on a decodable id with a changed attribute, when the vendor
answers the Set call with an error, `ResourceNotFoundException` included, Update
returns that error, wrapped, hence a non-nil error; when instead the Get call of
the read-back answers `ResourceNotFoundException`, whether or not a Set call came
before it, Update returns nil and clears the id, as Read does. -/
theorem update_not_found {σ : Type} (conn : Conn σ) (r : Run σ)
    (hdec : (DecodeIdentityProviderPrincipalTagsID r.d.Id).2.2 = none) :
    (r.d.HasChanges [Key.principal_tags, Key.use_defaults] = true →
      ∀ e, (conn.SetPrincipalTagAttributeMap r.vendor
          { IdentityPoolId := some (DecodeIdentityProviderPrincipalTagsID r.d.Id).1,
            IdentityProviderName := some (DecodeIdentityProviderPrincipalTagsID r.d.Id).2.1,
            PrincipalTags := some (ExpandStringMap r.d.GetPrincipalTags),
            UseDefaults := some r.d.GetUseDefaults }).2 = some e →
        (resourceIdentityProviderPrincipalTagUpdate conn r).1 =
          some (Error.wrap "Error updating Cognito Identity Provider" e)) ∧
    (r.d.HasChanges [Key.principal_tags, Key.use_defaults] = true →
      (conn.SetPrincipalTagAttributeMap r.vendor
          { IdentityPoolId := some (DecodeIdentityProviderPrincipalTagsID r.d.Id).1,
            IdentityProviderName := some (DecodeIdentityProviderPrincipalTagsID r.d.Id).2.1,
            PrincipalTags := some (ExpandStringMap r.d.GetPrincipalTags),
            UseDefaults := some r.d.GetUseDefaults }).2 = none →
      ∀ e, (conn.GetPrincipalTagAttributeMap
          (conn.SetPrincipalTagAttributeMap r.vendor
            { IdentityPoolId := some (DecodeIdentityProviderPrincipalTagsID r.d.Id).1,
              IdentityProviderName := some (DecodeIdentityProviderPrincipalTagsID r.d.Id).2.1,
              PrincipalTags := some (ExpandStringMap r.d.GetPrincipalTags),
              UseDefaults := some r.d.GetUseDefaults }).1
          { IdentityPoolId := some (DecodeIdentityProviderPrincipalTagsID r.d.Id).1,
            IdentityProviderName :=
              some (DecodeIdentityProviderPrincipalTagsID r.d.Id).2.1 }).2 = Except.error e →
        (errorsAsAws e).map Prod.fst = some "ResourceNotFoundException" →
        (resourceIdentityProviderPrincipalTagUpdate conn r).1 = none ∧
        (resourceIdentityProviderPrincipalTagUpdate conn r).2.d.Id = "") ∧
    (r.d.HasChanges [Key.principal_tags, Key.use_defaults] = false →
      ∀ e, (conn.GetPrincipalTagAttributeMap r.vendor
          { IdentityPoolId := some (DecodeIdentityProviderPrincipalTagsID r.d.Id).1,
            IdentityProviderName :=
              some (DecodeIdentityProviderPrincipalTagsID r.d.Id).2.1 }).2 = Except.error e →
        (errorsAsAws e).map Prod.fst = some "ResourceNotFoundException" →
        (resourceIdentityProviderPrincipalTagUpdate conn r).1 = none ∧
        (resourceIdentityProviderPrincipalTagUpdate conn r).2.d.Id = "") := by
  have hD := decode_eq_of_no_error r.d.Id hdec
  refine ⟨?_, ?_, ?_⟩
  · intro hch e hs
    rw [update_of_changed conn r _ _ hD hch, hs]
  · intro hch hs e hget hnf
    rw [update_of_changed conn r _ _ hD hch, hs]
    exact read_not_found_of_decoded conn
      { d := r.d,
        vendor := (conn.SetPrincipalTagAttributeMap r.vendor
          { IdentityPoolId := some (DecodeIdentityProviderPrincipalTagsID r.d.Id).1,
            IdentityProviderName := some (DecodeIdentityProviderPrincipalTagsID r.d.Id).2.1,
            PrincipalTags := some (ExpandStringMap r.d.GetPrincipalTags),
            UseDefaults := some r.d.GetUseDefaults }).1,
        calls := r.calls ++ [Call.set
          { IdentityPoolId := some (DecodeIdentityProviderPrincipalTagsID r.d.Id).1,
            IdentityProviderName := some (DecodeIdentityProviderPrincipalTagsID r.d.Id).2.1,
            PrincipalTags := some (ExpandStringMap r.d.GetPrincipalTags),
            UseDefaults := some r.d.GetUseDefaults }] }
      _ _ hD e hget hnf
  · intro hch e hget hnf
    have hU : resourceIdentityProviderPrincipalTagUpdate conn r =
        resourceIdentityProviderPrincipalTagRead conn r := by
      unfold resourceIdentityProviderPrincipalTagUpdate
      rw [hD]
      simp only [hch]
      rfl
    rw [hU]
    exact read_not_found_of_decoded conn r _ _ hD e hget hnf

/-- Witness of the amended C13: the vendor answers the Set call of an Update
with not-found, and Update returns the wrapped error. -/
theorem update_not_found_witness :
    (resourceIdentityProviderPrincipalTagUpdate scriptedConn
        (startRun desiredUpdate ([some notFoundError], []))).1 =
      some (Error.wrap "Error updating Cognito Identity Provider" notFoundError) :=
  (update_not_found scriptedConn (startRun desiredUpdate ([some notFoundError], []))
    (by decide)).1 (by decide) notFoundError rfl

/-! ## The exact behaviour of the codec -/

theorem Split_of_not_mem (s : String) (h : ':' ∉ s.data) : Split s ':' = [s] := by
  simp [Split, splitChars_of_not_mem _ _ h]

theorem decode_provider_name_no_colon (id : String)
    (h : (DecodeIdentityProviderPrincipalTagsID id).2.2 = none) :
    ':' ∉ (DecodeIdentityProviderPrincipalTagsID id).2.1.data := by
  rw [decode_error_iff] at h
  rw [decode_of_long id h]
  have hne := Split_ne_nil id
  simp only [drop_length_pred_eq_getLast _ hne, Join_singleton]
  exact not_mem_of_mem_Split id _ (List.getLast_mem hne)

theorem decode_error_iff_count (id : String) :
    (DecodeIdentityProviderPrincipalTagsID id).2.2 ≠ none ↔ id.data.count ':' < 2 := by
  rw [Ne, decode_error_iff, length_Split]
  omega

/-- C14: decode returns an error exactly when the id holds fewer than two `:`,
that is when it has at most two `:`-separated segments; with the error both
returned strings are empty; in particular every id `a:b` of two segments is
rejected. -/
theorem decode_fails_iff_fewer_than_two_colons (id : String) :
    ((DecodeIdentityProviderPrincipalTagsID id).2.2 ≠ none ↔ id.data.count ':' < 2) ∧
    (id.data.count ':' < 2 ↔ (Split id ':').length ≤ 2) ∧
    ((DecodeIdentityProviderPrincipalTagsID id).2.2 ≠ none →
      (DecodeIdentityProviderPrincipalTagsID id).1 = "" ∧
      (DecodeIdentityProviderPrincipalTagsID id).2.1 = "") ∧
    (∀ a b : String, ':' ∉ a.data → ':' ∉ b.data →
      (DecodeIdentityProviderPrincipalTagsID (a ++ ":" ++ b)).2.2 ≠ none) := by
  refine ⟨decode_error_iff_count id, ?_, ?_, ?_⟩
  · rw [length_Split]
    omega
  · intro h
    have hlen : (Split id ':').length ≤ 2 := by
      rw [decode_error_iff_count] at h
      rw [length_Split]
      omega
    rw [decode_of_short id hlen]
    exact ⟨rfl, rfl⟩
  · intro a b ha hb
    have hlen : (Split (sprintfID a b) ':').length ≤ 2 := by
      rw [Split_sprintfID, Split_of_not_mem a ha, Split_of_not_mem b hb]
      simp
    have := decode_of_short (sprintfID a b) hlen
    simp only [sprintfID] at this
    rw [this]
    simp

/-- Witness of C14: the id `us-east-1:0a1b`, a pool id without a provider name,
holds one `:` and is rejected with two empty strings. -/
theorem decode_fails_iff_fewer_than_two_colons_witness :
    ("us-east-1:0a1b".data.count ':' < 2 ∧
      (DecodeIdentityProviderPrincipalTagsID "us-east-1:0a1b").2.2 ≠ none) ∧
    ((DecodeIdentityProviderPrincipalTagsID "us-east-1:0a1b").1 = "" ∧
      (DecodeIdentityProviderPrincipalTagsID "us-east-1:0a1b").2.1 = "") ∧
    (DecodeIdentityProviderPrincipalTagsID ("a" ++ ":" ++ "b")).2.2 ≠ none :=
  ⟨⟨by decide, (decode_fails_iff_fewer_than_two_colons "us-east-1:0a1b").1.2 (by decide)⟩,
    (decode_fails_iff_fewer_than_two_colons "us-east-1:0a1b").2.2.1 (by decide),
    (decode_fails_iff_fewer_than_two_colons "").2.2.2 "a" "b" (by decide) (by decide)⟩

/-- C15: for all strings `poolId` and `providerName`, decoding the identifier
`poolId:providerName` gives back exactly `(poolId, providerName)` with a nil
error if and only if `providerName` holds no `:` and `poolId` holds at least
one. -/
theorem decode_sprintfID_roundtrip_iff (poolId providerName : String) :
    DecodeIdentityProviderPrincipalTagsID (sprintfID poolId providerName)
        = (poolId, providerName, none) ↔
      ':' ∉ providerName.data ∧ ':' ∈ poolId.data := by
  constructor
  · intro h
    have herr : (DecodeIdentityProviderPrincipalTagsID
        (sprintfID poolId providerName)).2.2 = none := by rw [h]
    have hn := decode_provider_name_no_colon _ herr
    rw [h] at hn
    simp only at hn
    refine ⟨hn, ?_⟩
    rw [decode_error_iff, Split_sprintfID, Split_of_not_mem providerName hn,
      List.length_append, length_Split] at herr
    simp only [List.length_singleton] at herr
    have hpos : 0 < poolId.data.count ':' := by omega
    exact List.count_pos_iff.1 hpos
  · rintro ⟨hn, hp⟩
    have hpos : 0 < poolId.data.count ':' := List.count_pos_iff.2 hp
    have hsplit : Split (sprintfID poolId providerName) ':' =
        Split poolId ':' ++ [providerName] := by
      rw [Split_sprintfID, Split_of_not_mem providerName hn]
    have hlen : 2 < (Split (sprintfID poolId providerName) ':').length := by
      rw [hsplit, List.length_append, length_Split]
      simp only [List.length_singleton]
      omega
    rw [decode_of_long _ hlen, hsplit]
    have hl : (Split poolId ':' ++ [providerName]).length - 1 = (Split poolId ':').length := by
      simp
    rw [hl, List.take_left, List.drop_left, Join_Split, Join_singleton]

/-- Witness of C15, in both directions: a pair inside the domain round-trips,
and a provider name with a `:` does not. -/
theorem decode_sprintfID_roundtrip_iff_witness :
    DecodeIdentityProviderPrincipalTagsID (sprintfID "us-east-1:0a1b" "graph.facebook.com")
        = ("us-east-1:0a1b", "graph.facebook.com", none) ∧
    DecodeIdentityProviderPrincipalTagsID (sprintfID "us-east-1:0a1b" "a:b")
        ≠ ("us-east-1:0a1b", "a:b", none) :=
  ⟨(decode_sprintfID_roundtrip_iff "us-east-1:0a1b" "graph.facebook.com").2
      ⟨by decide, by decide⟩,
    fun h => ((decode_sprintfID_roundtrip_iff "us-east-1:0a1b" "a:b").1 h).1 (by decide)⟩

end CognitoIdentity
